import Mathlib

/-!
Shallow embedding of the ticket-printer repository (src/qr_scan.py and
src/stats.py) and proofs about its specification.

External collaborators that the scripts call into (camera capture and
barcode decoding, the qrcode library, PIL image loading, the OS print
command, wall-clock timestamps) are supplied as explicit parameters in an
`Env` record.  Filesystem and log effects are made explicit: the
filesystem is a path-to-bytes map and every side effect of one dispatch
iteration is recorded as an `Action`.
-/

namespace TicketPrinter

/-- RGB color triple, one value per channel (models a PIL "RGB" pixel). -/
abbrev Color := Nat × Nat × Nat

/-- The white background fill (255, 255, 255) used in qr_scan.py line 120. -/
def white : Color := (255, 255, 255)

/-- Raster image: dimensions plus a total pixel function (models a PIL image;
pixels outside the bounds are irrelevant junk values). -/
structure Img where
  width : Nat
  height : Nat
  pixel : Nat → Nat → Color

/-- Models PIL Image.new with a constant fill color. -/
def Img.new (w h : Nat) (c : Color) : Img := ⟨w, h, fun _ _ => c⟩

/-- Models PIL Image.paste of src onto base with upper-left corner (px, py);
pixels outside the pasted box keep the base value, and the pasted box is
clipped to the base canvas because only in-bounds pixels are ever read. -/
def Img.paste (base src : Img) (px py : Nat) : Img :=
  { width := base.width
    height := base.height
    pixel := fun x y =>
      if px ≤ x ∧ x < px + src.width ∧ py ≤ y ∧ y < py + src.height then
        src.pixel (x - px) (y - py)
      else base.pixel x y }

/-- Models PIL Image.resize to (w, h): a fixed deterministic resampling.
The claims only depend on the result dimensions and on determinism, not on
the concrete resampling arithmetic. -/
def Img.resize (img : Img) (w h : Nat) : Img :=
  { width := w
    height := h
    pixel := fun x y => img.pixel (x * img.width / w) (y * img.height / h) }

/-- Deterministic byte serialization of an image: models the PNG bytes that
img.save writes (PIL PNG encoding is a deterministic function of the
pixel data). -/
def Img.encode (img : Img) : List Nat :=
  img.width :: img.height ::
    (List.range img.height).flatMap (fun y =>
      (List.range img.width).flatMap (fun x =>
        [(img.pixel x y).1, (img.pixel x y).2.1, (img.pixel x y).2.2]))

/-- Configuration constant TEMPLATE_DIR (qr_scan.py line 27). -/
def TEMPLATE_DIR : String := "templates"

/-- Configuration constant OUTPUT_DIR (qr_scan.py line 28). -/
def OUTPUT_DIR : String := "output"

/-- Configuration constant QR_SIZE (qr_scan.py line 38). -/
def QR_SIZE : Nat := 180

/-- Configuration constant QR_INSERT_POS (qr_scan.py line 39). -/
def QR_INSERT_POS : Nat × Nat := (1540, 255)

/-- Configuration constant TEMPLATE_Y_OFFSET (qr_scan.py line 42). -/
def TEMPLATE_Y_OFFSET : Nat := 20

/-- The filesystem: an association list from paths to file bytes. -/
abbrev FS := List (String × List Nat)

/-- Look a path up in the filesystem. -/
def fsLookup : FS → String → Option (List Nat)
  | [], _ => none
  | (q, v) :: fs, p => if q = p then some v else fsLookup fs p

/-- Remove a path from the filesystem (models os.remove; in this
filesystem model removal of a file always succeeds, so the except-branch
of delete_file in the source is unreachable). -/
def fsErase (fs : FS) (p : String) : FS := fs.filter (fun e => e.1 != p)

/-- Create or overwrite a file (models img.save writing the file). -/
def fsWrite (fs : FS) (p : String) (v : List Nat) : FS := (p, v) :: fsErase fs p

/-- Does a path exist in the filesystem (models os.path.exists)? -/
def fsExists (fs : FS) (p : String) : Bool := (fsLookup fs p).isSome

/-- One observable side effect of a dispatch iteration. -/
inductive Action where
  | fileWrite (path : String) (bytes : List Nat)
  | fileDelete (path : String)
  | printSubmit (path : String)
  | logWrite (level : String) (line : String)
  | consoleOut (msg : String)
deriving DecidableEq

/-- The (path, bytes) pairs of the files written by a list of actions. -/
def fileWrites (acts : List Action) : List (String × List Nat) :=
  acts.filterMap fun a => match a with
    | Action.fileWrite p b => some (p, b)
    | _ => none

/-- The paths of the files deleted by a list of actions. -/
def fileDeletes (acts : List Action) : List String :=
  acts.filterMap fun a => match a with
    | Action.fileDelete p => some p
    | _ => none

/-- The paths handed to the OS print mechanism by a list of actions. -/
def printSubmits (acts : List Action) : List String :=
  acts.filterMap fun a => match a with
    | Action.printSubmit p => some p
    | _ => none

/-- The info-level log lines written by a list of actions. -/
def infoLogs (acts : List Action) : List String :=
  acts.filterMap fun a => match a with
    | Action.logWrite "INFO" l => some l
    | _ => none

/-- The error-level log lines written by a list of actions. -/
def errLogs (acts : List Action) : List String :=
  acts.filterMap fun a => match a with
    | Action.logWrite "ERROR" l => some l
    | _ => none

/-- All log lines written by a list of actions, at any level. -/
def logLines (acts : List Action) : List String :=
  acts.filterMap fun a => match a with
    | Action.logWrite _ l => some l
    | _ => none

/-- The console messages printed by a list of actions. -/
def consoleOuts (acts : List Action) : List String :=
  acts.filterMap fun a => match a with
    | Action.consoleOut m => some m
    | _ => none

/-- Python str() of a bool, as interpolated by the f-strings in the log
messages. -/
def pyBool (b : Bool) : String := if b then "True" else "False"

/-- Python truthiness of an optional string: None and the empty string are
falsy (models the check if qr_text at qr_scan.py line 124). -/
def pyTruthyStr : Option String → Bool
  | none => false
  | some s => !(s == "")

/-- One formatted log line, following the logging format string
"%(asctime)s [%(levelname)s] %(message)s" (qr_scan.py line 56). -/
def logLine (ts level msg : String) : String :=
  ts ++ (" [" ++ (level ++ ("] " ++ msg)))

/-- Models log_event (qr_scan.py lines 62-66): "error" goes to
logging.error, everything else to logging.info. -/
def log_event (ts level msg : String) : Action :=
  if level == "error" then Action.logWrite "ERROR" (logLine ts "ERROR" msg)
  else Action.logWrite "INFO" (logLine ts "INFO" msg)

/-- One camera frame, as the scan loop sees it: either cap.read fails, or
a frame arrives carrying the list of decoded barcodes and whether the
operator pressed q while it was shown. -/
inductive Frame where
  | readFail
  | frame (codes : List String) (qKey : Bool)
deriving DecidableEq

/-- The camera device: whether VideoCapture(0) opens, and the stream of
frames it will deliver (an exhausted stream models cap.read returning
ret = False). -/
structure Camera where
  opened : Bool
  frames : List Frame
deriving DecidableEq

/-- The frame loop of scan_qr_code (qr_scan.py lines 92-108): return the
first decoded code, stop with None on a read failure, the end of the
stream, or a q keypress on a codeless frame. -/
def scanFrames : List Frame → Option String × List Action
  | [] => (none, [])
  | Frame.readFail :: _ => (none, [])
  | Frame.frame codes qKey :: rest =>
    match codes with
    | c :: _ => (some c, [Action.consoleOut ("QR-Code erkannt: " ++ c)])
    | [] => if qKey then (none, []) else scanFrames rest

/-- Models scan_qr_code (qr_scan.py lines 82-108). -/
def scan_qr_code (cam : Camera) (ts : String) : Option String × List Action :=
  if cam.opened then
    let r := scanFrames cam.frames
    (r.1, Action.consoleOut "QR-Code Scan gestartet – halte Code vor die Kamera (q zum Abbrechen)." :: r.2)
  else
    (none, [Action.consoleOut "Kamera konnte nicht geöffnet werden.",
            log_event ts "error" "Kamera konnte nicht geöffnet werden."])

/-- Models send_to_printer (qr_scan.py lines 132-171).  The outcome of the
external call (subprocess.run of lp with check=True, or os.startfile) is
supplied as printCall: ok for a zero exit, error e for a raised exception
with message e.  A printSubmit action records that the OS print mechanism
was invoked.  On a platform that is neither Linux, Darwin nor Windows the
Python function falls through and implicitly returns None, modelled as
none. -/
def send_to_printer (system : String) (printCall : Except String Unit)
    (ts : String) (filepath : String) : Option Bool × List Action :=
  if system == "Linux" || system == "Darwin" then
    match printCall with
    | Except.ok _ =>
      (some true, [Action.printSubmit filepath,
                   Action.consoleOut ("Druckauftrag gesendet: " ++ filepath)])
    | Except.error e =>
      (some false, [Action.printSubmit filepath,
                    Action.consoleOut ("Fehler beim Drucken: " ++ e),
                    log_event ts "error" ("Druckfehler: " ++ e)])
  else if system == "Windows" then
    match printCall with
    | Except.ok _ => (some true, [Action.printSubmit filepath])
    | Except.error e =>
      (some false, [Action.consoleOut ("Fehler beim Drucken unter Windows: " ++ e),
                    log_event ts "error" ("Druckfehler (Windows): " ++ e)])
  else (none, [])

/-- Models delete_file (qr_scan.py lines 174-182): delete the file if the
path is truthy and the file exists.  In this filesystem model os.remove
always succeeds, so the except-branch of the source is unreachable. -/
def delete_file (fs : FS) (filepath : String) : FS × List Action :=
  if !(filepath == "") && fsExists fs filepath then
    (fsErase fs filepath,
     [Action.fileDelete filepath, Action.consoleOut ("Datei gelöscht: " ++ filepath)])
  else (fs, [])

/-- The image-composition core of overlay_qr_on_template (qr_scan.py lines
115-127): load the template, enlarge the canvas and shift the template
down by y_offset when it is nonzero, and paste the QR image (resized to
QR_SIZE square) at QR_INSERT_POS when qr_text is truthy.  qrMake models
the external qrcode.make library call. -/
def overlay_image (qrMake : String → Img) (img0 : Img) (qr_text : Option String)
    (y_offset : Nat) : Img :=
  let img := if y_offset ≠ 0 then
      Img.paste (Img.new img0.width (img0.height + y_offset) white) img0 0 y_offset
    else img0
  if pyTruthyStr qr_text then
    Img.paste img (Img.resize (qrMake (qr_text.getD "")) QR_SIZE QR_SIZE)
      QR_INSERT_POS.1 QR_INSERT_POS.2
  else img

/-- Models overlay_qr_on_template (qr_scan.py lines 111-129) including the
img.save(out_path) write and the returned out_path.  loadImg models
PIL Image.open followed by convert("RGB"). -/
def overlay_qr_on_template (qrMake loadImg : String → Img) (template_path : String)
    (qr_text : Option String) (out_path : String) (y_offset : Nat) (fs : FS) :
    FS × String × List Action :=
  let img := overlay_image qrMake (loadImg template_path) qr_text y_offset
  (fsWrite fs out_path img.encode, out_path, [Action.fileWrite out_path img.encode])

/-- The external world one dispatch iteration interacts with: the camera,
platform.system(), the outcome of the OS print call, the two timestamp
strings datetime.now() yields this iteration (log format and filename
format), the qrcode library and PIL image loading. -/
structure Env where
  camera : Camera
  system : String
  printCall : Except String Unit
  logTs : String
  fileTs : String
  qrMake : String → Img
  loadImg : String → Img

/-- The ephemeral ticket filename os.path.join(OUTPUT_DIR,
f"ticket_{timestamp()}.png") (qr_scan.py line 243). -/
def ticketPath (fts : String) : String :=
  OUTPUT_DIR ++ ("/ticket_" ++ (fts ++ ".png"))

/-- The value send_to_printer returns for this environment's ticket file. -/
def sendRes (env : Env) : Option Bool :=
  (send_to_printer env.system env.printCall env.logTs (ticketPath env.fileTs)).1

/-- The configured templates dict (qr_scan.py lines 199-216); keys other
than 1-4 never reach this mapping because the dispatch guards them. -/
def templates : Nat → String × String
  | 1 => ("Waldseite", "templates/ws_eintrittskarte_gladbach_waldseite.png")
  | 2 => ("Gegengerade", "templates/ws_eintrittskarte_gladbach_gegengerade.png")
  | 3 => ("Wuhleseite", "templates/ws_eintrittskarte_gladbach_wuhleseite.png")
  | 4 => ("Haupttribüne", "templates/ws_eintrittskarte_gladbach_haupttribuene.png")
  | _ => ("", "")

/-- Models int(key) on the validated console keys "1".."6". -/
def keyToNum (key : String) : Nat :=
  if key == "1" then 1 else if key == "2" then 2 else if key == "3" then 3
  else if key == "4" then 4 else if key == "5" then 5 else 6

/-- The console key a numeric button corresponds to. -/
def numKey : Nat → String
  | 1 => "1" | 2 => "2" | 3 => "3" | 4 => "4" | 5 => "5" | _ => "6"

/-- The shared print pipeline of one print event (qr_scan.py lines 239-257
in console mode, identically duplicated at lines 269-293 in GPIO mode):
scan a code when in QR mode, compose and save the ticket, send it to the
printer, then log success and delete the file, or log the failure. -/
def printFlow (env : Env) (sector_name template_path : String) (qr_mode : Bool)
    (fs : FS) : FS × List Action :=
  let scanRes := if qr_mode then scan_qr_code env.camera env.logTs else (some "", [])
  let filename := ticketPath env.fileTs
  let ov := overlay_qr_on_template env.qrMake env.loadImg template_path scanRes.1
      filename TEMPLATE_Y_OFFSET fs
  let sp := send_to_printer env.system env.printCall env.logTs filename
  if sp.1 == some true then
    let logA := log_event env.logTs "info"
        ("Ticket gedruckt: Sektor=" ++ (sector_name ++ (" | QR=" ++ pyBool qr_mode)))
    let del := delete_file ov.1 filename
    (del.1, scanRes.2 ++ (ov.2.2 ++ (sp.2 ++ (logA :: del.2))))
  else
    let logA := log_event env.logTs "error"
        ("Druckfehler: Sektor=" ++ (sector_name ++ (" | QR=" ++ pyBool qr_mode)))
    (ov.1, scanRes.2 ++ (ov.2.2 ++ (sp.2 ++ [logA])))

/-- The current sector selection: the (label, template path) pair, or none
before the first select event. -/
abbrev Sel := String × String

/-- Result of one console-mode loop iteration: none when key "q" breaks
the loop, otherwise the new selection, the new filesystem and the actions
performed. -/
abbrev StepRes := Option (Option Sel × FS × List Action)

/-- One console-mode loop iteration of main (qr_scan.py lines 227-259). -/
def stepConsole (env : Env) (sel : Option Sel) (fs : FS) (key : String) : StepRes :=
  if key == "q" then none
  else if key == "1" || key == "2" || key == "3" || key == "4" then
    let t := templates (keyToNum key)
    some (some t, fs, [Action.consoleOut ("Template ausgewählt: " ++ t.1)])
  else if key == "5" || key == "6" then
    match sel with
    | none => some (none, fs, [Action.consoleOut "Bitte zuerst Template wählen (1–4)."])
    | some s =>
      let r := printFlow env s.1 s.2 (key == "6") fs
      some (some s, r.1, r.2)
  else some (sel, fs, [Action.consoleOut "Ungültige Eingabe. 1–6 oder q zum Beenden."])

/-- One GPIO-mode button handling of main (qr_scan.py lines 262-295), for
the button num whose pin read LOW; the debounce sleeps and the
wait-for-release loop have no observable effect in this model. -/
def stepGpio (env : Env) (sel : Option Sel) (fs : FS) (num : Nat) :
    Option Sel × FS × List Action :=
  if num == 1 || num == 2 || num == 3 || num == 4 then
    let t := templates num
    (some t, fs, [Action.consoleOut ("Template ausgewählt: " ++ t.1)])
  else if (num == 5 || num == 6) && sel.isSome then
    match sel with
    | some s =>
      let r := printFlow env s.1 s.2 (num == 6) fs
      (some s, r.1, r.2)
    | none => (sel, fs, [])
  else (sel, fs, [])

/-- Selection after a console iteration (unchanged when the loop broke). -/
def outSel (sel : Option Sel) (r : StepRes) : Option Sel :=
  match r with
  | some (s, _, _) => s
  | none => sel

/-- Filesystem after a console iteration (unchanged when the loop broke). -/
def outFS (fs : FS) (r : StepRes) : FS :=
  match r with
  | some (_, f, _) => f
  | none => fs

/-- Actions performed by a console iteration (none when the loop broke). -/
def outActs (r : StepRes) : List Action :=
  match r with
  | some (_, _, a) => a
  | none => []

/-- The lazy tail of the Tally regex (stats.py line 9): find the minimal
split rest = sector-chars followed by " | QR=True" or " | QR=False"; the
dot of the lazy group does not cross a newline. -/
def matchQR : List Char → Option (List Char × Bool)
  | [] => none
  | c :: cs =>
    if List.isPrefixOf (" | QR=True".data) (c :: cs) then some ([], true)
    else if List.isPrefixOf (" | QR=False".data) (c :: cs) then some ([], false)
    else if c == '\n' then none
    else
      match matchQR cs with
      | some (sec, q) => some (c :: sec, q)
      | none => none

/-- re.search of the Tally pattern over a line: try each start position
left to right; where the literal "Sektor=" matches, try the lazy tail, and
on its failure resume at the next position. -/
def reSearchSektor : List Char → Option (List Char × Bool)
  | [] => none
  | c :: cs =>
    if List.isPrefixOf ("Sektor=".data) (c :: cs) then
      match matchQR (List.drop 7 (c :: cs)) with
      | some r => some r
      | none => reSearchSektor cs
    else reSearchSektor cs

/-- The (sector, qr-group) pair the Tally utility extracts from one log
line, or none when the line does not match (stats.py lines 8-12). -/
def extractLine (line : String) : Option (String × String) :=
  match reSearchSektor line.data with
  | some (sec, q) => some (String.mk sec, pyBool q)
  | none => none

/-- The multiset of (sector, qr) pairs counted by the Tally Counter. -/
def tallyPairs (lines : List String) : List (String × String) :=
  lines.filterMap extractLine

/-- Tickets counted for one sector (stats.py line 17). -/
def sectorTotal (ps : List (String × String)) (s : String) : Nat :=
  (ps.filter (fun p => p.1 == s)).length

/-- QR tickets counted for one sector (stats.py line 18). -/
def sectorQR (ps : List (String × String)) (s : String) : Nat :=
  (ps.filter (fun p => p.1 == s && p.2 == "True")).length

/-- Insert a string into a sorted list (ascending code-point order). -/
def insertStr (s : String) : List String → List String
  | [] => [s]
  | t :: ts => if s < t then s :: t :: ts else t :: insertStr s ts

/-- Insertion sort on strings: models Python sorted(). -/
def sortStrs : List String → List String
  | [] => []
  | s :: ss => insertStr s (sortStrs ss)

/-- The report the Tally utility prints (stats.py lines 14-20): the header,
one line per sector in sorted order, and the grand total. -/
def statsOutput (lines : List String) : List String :=
  let ps := tallyPairs lines
  let secs := sortStrs (ps.map Prod.fst).dedup
  "--- Statistik ---"
    :: (secs.map fun s =>
        s ++ (": " ++ (toString (sectorTotal ps s)
          ++ (" Tickets (davon " ++ (toString (sectorQR ps s) ++ " mit QR)")))))
    ++ ["Gesamt: " ++ (toString ps.length ++ " Tickets")]

/-- The shape every line of the claimed log format
<timestamp> [<LEVEL>] Sektor=<name> | QR=<True|False> takes. -/
def specFormatLine (ts level name qr : String) : String :=
  ts ++ (" [" ++ (level ++ ("] Sektor=" ++ (name ++ (" | QR=" ++ qr)))))

/-- The prefix shared by every instance of the claimed log format for a
given timestamp and level. -/
def specFormatPrefix (ts level : String) : String :=
  ts ++ (" [" ++ (level ++ "] Sektor="))

/-- Prefix test on the character data of two strings. -/
def strPrefix (p s : String) : Bool := p.data.isPrefixOf s.data

/-- A 1-by-1 black stand-in template image for concrete runs. -/
def onePx : Img := Img.new 1 1 (0, 0, 0)

/-- A concrete stand-in for a generated code image. -/
def qrStub : Img := Img.new 4 4 (0, 0, 0)

/-- A camera that opens but never decodes a code: the operator cancels
with q on the first frame, so scan_qr_code returns none. -/
def camNoCode : Camera := ⟨true, [Frame.frame [] true]⟩

/-- Concrete environment: Linux host, print call succeeds, camera yields
no code. -/
def envOkLinux : Env :=
  ⟨camNoCode, "Linux", Except.ok (), "2024-05-01 12:00:00", "20240501_120000",
   fun _ => qrStub, fun _ => onePx⟩

/-- Concrete environment like envOkLinux but the lp call raises. -/
def envFailLinux : Env := { envOkLinux with printCall := Except.error "lp: Fehler" }

/-- Appending strings appends their character data. -/
theorem data_append (s t : String) : (s ++ t).data = s.data ++ t.data := rfl

/-- A list is a prefix of itself followed by anything. -/
theorem isPrefixOf_append_self (l r : List Char) : l.isPrefixOf (l ++ r) = true := by
  induction l with
  | nil => simp [List.isPrefixOf]
  | cons c cs ih => simp [List.isPrefixOf, ih]

/-- Every instance of the claimed log format starts with the shared
sector-format prefix; this justifies reading a failed strPrefix check as
"the line matches no instance of the claimed format". -/
theorem specFormatLine_has_prefix (ts level name qr : String) :
    strPrefix (specFormatPrefix ts level) (specFormatLine ts level name qr) = true := by
  have h : (specFormatLine ts level name qr).data
      = (specFormatPrefix ts level).data ++ ("Sektor=".data.drop 7 ++ (name ++ (" | QR=" ++ qr)).data) := by
    simp [specFormatLine, specFormatPrefix, data_append, List.append_assoc]
  unfold strPrefix
  rw [h]
  exact isPrefixOf_append_self _ _

/-- The ephemeral ticket path is never the empty (falsy) string. -/
theorem ticketPath_ne_empty (t : String) : (ticketPath t == "") = false := by
  apply beq_eq_false_iff_ne.mpr
  intro h
  have hd : (ticketPath t).data = [] := by rw [h]
  rw [show (ticketPath t).data
      = 'o' :: ("utput".data ++ ("/ticket_" ++ (t ++ ".png")).data) from rfl] at hd
  simp at hd

/-- Writing a file makes it exist. -/
theorem fsExists_fsWrite_self (fs : FS) (p : String) (v : List Nat) :
    fsExists (fsWrite fs p v) p = true := by
  simp [fsExists, fsWrite, fsLookup]

/-- Looking up a freshly written file yields its bytes. -/
theorem fsLookup_fsWrite_self (fs : FS) (p : String) (v : List Nat) :
    fsLookup (fsWrite fs p v) p = some v := by
  simp [fsWrite, fsLookup]

/-- Erasing a path removes every entry for it. -/
theorem fsLookup_fsErase_self (fs : FS) (p : String) :
    fsLookup (fsErase fs p) p = none := by
  induction fs with
  | nil => rfl
  | cons e rest ih =>
    obtain ⟨q, v⟩ := e
    by_cases h : q = p
    · simpa [fsErase, List.filter_cons, h] using ih
    · simpa [fsErase, List.filter_cons, h, fsLookup] using ih

/-- An erased path no longer exists. -/
theorem fsExists_fsErase_self (fs : FS) (p : String) :
    fsExists (fsErase fs p) p = false := by
  simp [fsExists, fsLookup_fsErase_self]

/-- The scan frame loop only prints to the console: it writes no log
line, no file, no print job and deletes nothing. -/
theorem scanFrames_obs (fr : List Frame) :
    infoLogs (scanFrames fr).2 = [] ∧ errLogs (scanFrames fr).2 = []
    ∧ fileWrites (scanFrames fr).2 = [] ∧ printSubmits (scanFrames fr).2 = []
    ∧ fileDeletes (scanFrames fr).2 = [] := by
  induction fr with
  | nil => exact ⟨rfl, rfl, rfl, rfl, rfl⟩
  | cons f rest ih =>
    cases f with
    | readFail => exact ⟨rfl, rfl, rfl, rfl, rfl⟩
    | frame codes qKey =>
      cases codes with
      | cons c cs => exact ⟨rfl, rfl, rfl, rfl, rfl⟩
      | nil =>
        cases qKey with
        | true => exact ⟨rfl, rfl, rfl, rfl, rfl⟩
        | false => exact ih

/-- The Code Reader writes no info-level log line, no file, no print job,
and deletes nothing (its only log line is the error-level camera
message). -/
theorem scan_obs (cam : Camera) (ts : String) :
    infoLogs (scan_qr_code cam ts).2 = []
    ∧ fileWrites (scan_qr_code cam ts).2 = []
    ∧ printSubmits (scan_qr_code cam ts).2 = []
    ∧ fileDeletes (scan_qr_code cam ts).2 = [] := by
  have h := scanFrames_obs cam.frames
  unfold scan_qr_code
  cases hc : cam.opened with
  | true =>
    simp only [if_pos rfl]
    exact ⟨h.1, h.2.2.1, h.2.2.2.1, h.2.2.2.2⟩
  | false => exact ⟨rfl, rfl, rfl, rfl⟩

/-- The Print Submitter writes no info-level log line, no file, deletes
nothing, and writes exactly one error-level line exactly when it reports
False (a caught exception). -/
theorem send_obs (s : String) (c : Except String Unit) (ts f : String) :
    infoLogs (send_to_printer s c ts f).2 = []
    ∧ fileWrites (send_to_printer s c ts f).2 = []
    ∧ fileDeletes (send_to_printer s c ts f).2 = []
    ∧ (errLogs (send_to_printer s c ts f).2).length
        = (if (send_to_printer s c ts f).1 = some false then 1 else 0) := by
  unfold send_to_printer
  rcases c with _ | e <;>
    cases hL : (s == "Linux" || s == "Darwin") <;>
    cases hW : (s == "Windows") <;>
    exact ⟨rfl, rfl, rfl, rfl⟩

/-- File deletion writes no log line, no file and no print job. -/
theorem delete_obs (fs : FS) (p : String) :
    infoLogs (delete_file fs p).2 = [] ∧ errLogs (delete_file fs p).2 = []
    ∧ fileWrites (delete_file fs p).2 = []
    ∧ printSubmits (delete_file fs p).2 = [] := by
  unfold delete_file
  by_cases h : (!(p == "") && fsExists fs p) = true
  · simp [h, infoLogs, errLogs, fileWrites, fileDeletes, printSubmits]
  · simp [h, infoLogs, errLogs, fileWrites, fileDeletes, printSubmits]

/-- On Linux or Darwin the lp command is invoked for the given file
whatever the outcome. -/
theorem send_printSubmits_unix (s : String) (c : Except String Unit) (ts f : String)
    (h : s = "Linux" ∨ s = "Darwin") :
    printSubmits (send_to_printer s c ts f).2 = [f] := by
  rcases h with h | h <;> subst h <;> rcases c with _ | e <;>
    simp [send_to_printer, printSubmits, log_event, logLine]

/-- Scanning a character list that starts with an S-free prefix finds the
same match as scanning the rest: no start position inside the prefix can
begin the literal "Sektor=". -/
theorem reSearchSektor_append (p l : List Char) (hp : 'S' ∉ p) :
    reSearchSektor (p ++ l) = reSearchSektor l := by
  induction p with
  | nil => simp
  | cons c cs ih =>
    have hSc : 'S' ≠ c := by
      intro h
      exact hp (by rw [h]; exact List.mem_cons_self c cs)
    have hcs : 'S' ∉ cs := fun hm => hp (List.mem_cons_of_mem c hm)
    have hpre : List.isPrefixOf ("Sektor=".data) (c :: (cs ++ l)) = false := by
      rw [show "Sektor=".data = 'S' :: "ektor=".data from rfl]
      simp [List.isPrefixOf, beq_eq_false_iff_ne.mpr hSc]
    show reSearchSektor (c :: (cs ++ l)) = reSearchSektor l
    rw [reSearchSektor, hpre]
    simpa using ih hcs

/-- C4 (amended): a print event with no prior selection takes no action in
either mode — no image, no print call, no log write — but only the console
dispatcher emits the user-visible warning; the GPIO dispatcher skips the
event silently. -/
theorem C4_no_selection_no_action (env : Env) (fs : FS) (key : String) (num : Nat)
    (hkey : key = "5" ∨ key = "6") (hnum : num = 5 ∨ num = 6) :
    stepConsole env none fs key
      = some (none, fs, [Action.consoleOut "Bitte zuerst Template wählen (1–4)."])
    ∧ stepGpio env none fs num = (none, fs, []) := by
  rcases hkey with h | h <;> rcases hnum with h2 | h2 <;> subst h <;> subst h2 <;>
    exact ⟨rfl, rfl⟩

/-- Witness for C4 at the concrete Linux environment, key "5", button 5. -/
theorem C4_witness :
    stepConsole envOkLinux none [] "5"
      = some (none, [], [Action.consoleOut "Bitte zuerst Template wählen (1–4)."])
    ∧ stepGpio envOkLinux none [] 5 = (none, [], []) :=
  C4_no_selection_no_action envOkLinux [] "5" 5 (Or.inl rfl) (Or.inl rfl)

/-- C4 counterexample: in GPIO mode a print event with no selection
produces no console output at all, so no user-visible warning is emitted,
contrary to the claim that both modes warn. -/
theorem C4_counterexample :
    stepGpio envOkLinux none [] 5 = (none, [], [])
    ∧ consoleOuts (stepGpio envOkLinux none [] 5).2.2 = [] := by decide

/-- C9: a select event 1-4 stores exactly the configured (label, template
path) pair for that key, in console and GPIO mode alike, whatever was
selected before. -/
theorem C9_selection_overwrites (env : Env) (prev : Option Sel) (fs : FS) (n : Nat)
    (hn : n = 1 ∨ n = 2 ∨ n = 3 ∨ n = 4) :
    outSel prev (stepConsole env prev fs (numKey n)) = some (templates n)
    ∧ (stepGpio env prev fs n).1 = some (templates n) := by
  rcases hn with h | h | h | h <;> subst h <;> exact ⟨rfl, rfl⟩

/-- Witness for C9: selecting sector 2 overwrites a previous selection of
sector 1 in both modes. -/
theorem C9_witness :
    outSel (some (templates 1)) (stepConsole envOkLinux (some (templates 1)) [] (numKey 2))
      = some (templates 2)
    ∧ (stepGpio envOkLinux (some (templates 1)) [] 2).1 = some (templates 2) :=
  C9_selection_overwrites envOkLinux (some (templates 1)) [] 2 (by decide)

/-- C5 (amended): on Linux, Darwin and Windows send_to_printer returns a
boolean, reporting any exception of the platform call as False together
with one error-level log line; on every other platform it falls through
and returns None (the Python function body ends without a return), still
without propagating an exception. -/
theorem C5_send_result (system : String) (c : Except String Unit) (ts fp : String) :
    ((system = "Linux" ∨ system = "Darwin" ∨ system = "Windows") →
      ∃ b : Bool, (send_to_printer system c ts fp).1 = some b)
    ∧ (∀ e, c = Except.error e →
        (system = "Linux" ∨ system = "Darwin" ∨ system = "Windows") →
          (send_to_printer system c ts fp).1 = some false
          ∧ (errLogs (send_to_printer system c ts fp).2).length = 1)
    ∧ (system ≠ "Linux" → system ≠ "Darwin" → system ≠ "Windows" →
        (send_to_printer system c ts fp).1 = none) := by
  refine ⟨?_, ?_, ?_⟩
  · intro h
    rcases h with h | h | h <;> subst h <;> rcases c with _ | e <;>
      first
      | exact ⟨true, rfl⟩
      | exact ⟨false, rfl⟩
  · intro e he h
    subst he
    rcases h with h | h | h <;> subst h <;> exact ⟨rfl, rfl⟩
  · intro h1 h2 h3
    have b1 : (system == "Linux" || system == "Darwin") = false := by
      simp [beq_eq_false_iff_ne.mpr h1, beq_eq_false_iff_ne.mpr h2]
    have b2 : (system == "Windows") = false := beq_eq_false_iff_ne.mpr h3
    unfold send_to_printer
    rw [b1, b2]
    rfl

/-- Witness for C5: a failing lp call on Linux yields False and one error
log line. -/
theorem C5_witness :
    (send_to_printer "Linux" (Except.error "lp: Fehler") "2024-05-01 12:00:00" "output/t.png").1
      = some false
    ∧ (errLogs (send_to_printer "Linux" (Except.error "lp: Fehler") "2024-05-01 12:00:00" "output/t.png").2).length
      = 1 :=
  (C5_send_result "Linux" (Except.error "lp: Fehler") "2024-05-01 12:00:00" "output/t.png").2.1
    "lp: Fehler" rfl (Or.inl rfl)

/-- C5 counterexample: on the platform string "Java" the function returns
the None model, which is neither True nor False, refuting the claim that a
boolean is returned for every host platform string. -/
theorem C5_counterexample :
    (send_to_printer "Java" (Except.ok ()) "t" "f").1 = none
    ∧ (send_to_printer "Java" (Except.ok ()) "t" "f").1 ≠ some true
    ∧ (send_to_printer "Java" (Except.ok ()) "t" "f").1 ≠ some false := by decide

/-- C10: the bytes the Compositor stores at the output path are a function
of the template, the code text and the offset alone — identical across
runs and independent of any prior filesystem state. -/
theorem C10_compositor_deterministic (qrMake loadImg : String → Img)
    (template_path : String) (qr_text : Option String) (out_path : String)
    (y_offset : Nat) (fs1 fs2 : FS) :
    fsLookup (overlay_qr_on_template qrMake loadImg template_path qr_text out_path y_offset fs1).1 out_path
      = fsLookup (overlay_qr_on_template qrMake loadImg template_path qr_text out_path y_offset fs2).1 out_path
    ∧ fsLookup (overlay_qr_on_template qrMake loadImg template_path qr_text out_path y_offset fs1).1 out_path
      = some (overlay_image qrMake (loadImg template_path) qr_text y_offset).encode := by
  constructor
  · simp [overlay_qr_on_template, fsLookup_fsWrite_self]
  · simp [overlay_qr_on_template, fsLookup_fsWrite_self]

/-- infoLogs distributes over action concatenation. -/
theorem infoLogs_append (a b : List Action) :
    infoLogs (a ++ b) = infoLogs a ++ infoLogs b := by
  simp [infoLogs, List.filterMap_append]

/-- errLogs distributes over action concatenation. -/
theorem errLogs_append (a b : List Action) :
    errLogs (a ++ b) = errLogs a ++ errLogs b := by
  simp [errLogs, List.filterMap_append]

/-- fileWrites distributes over action concatenation. -/
theorem fileWrites_append (a b : List Action) :
    fileWrites (a ++ b) = fileWrites a ++ fileWrites b := by
  simp [fileWrites, List.filterMap_append]

/-- printSubmits distributes over action concatenation. -/
theorem printSubmits_append (a b : List Action) :
    printSubmits (a ++ b) = printSubmits a ++ printSubmits b := by
  simp [printSubmits, List.filterMap_append]

/-- fileDeletes distributes over action concatenation. -/
theorem fileDeletes_append (a b : List Action) :
    fileDeletes (a ++ b) = fileDeletes a ++ fileDeletes b := by
  simp [fileDeletes, List.filterMap_append]

/-- logLines distributes over action concatenation. -/
theorem logLines_append (a b : List Action) :
    logLines (a ++ b) = logLines a ++ logLines b := by
  simp [logLines, List.filterMap_append]

/-- Code Reader actions contain no info-level log line. -/
theorem infoLogs_scan (cam : Camera) (ts : String) :
    infoLogs (scan_qr_code cam ts).2 = [] := (scan_obs cam ts).1

/-- Code Reader actions contain no file write. -/
theorem fileWrites_scan (cam : Camera) (ts : String) :
    fileWrites (scan_qr_code cam ts).2 = [] := (scan_obs cam ts).2.1

/-- Code Reader actions contain no print submission. -/
theorem printSubmits_scan (cam : Camera) (ts : String) :
    printSubmits (scan_qr_code cam ts).2 = [] := (scan_obs cam ts).2.2.1

/-- Code Reader actions contain no file deletion. -/
theorem fileDeletes_scan (cam : Camera) (ts : String) :
    fileDeletes (scan_qr_code cam ts).2 = [] := (scan_obs cam ts).2.2.2

/-- Print Submitter actions contain no info-level log line. -/
theorem infoLogs_send (s : String) (c : Except String Unit) (ts f : String) :
    infoLogs (send_to_printer s c ts f).2 = [] := (send_obs s c ts f).1

/-- Print Submitter actions contain no file write. -/
theorem fileWrites_send (s : String) (c : Except String Unit) (ts f : String) :
    fileWrites (send_to_printer s c ts f).2 = [] := (send_obs s c ts f).2.1

/-- Print Submitter actions contain no file deletion. -/
theorem fileDeletes_send (s : String) (c : Except String Unit) (ts f : String) :
    fileDeletes (send_to_printer s c ts f).2 = [] := (send_obs s c ts f).2.2.1

/-- The Print Submitter writes one error line exactly when it reports a
caught exception. -/
theorem errLogs_send_length (s : String) (c : Except String Unit) (ts f : String) :
    (errLogs (send_to_printer s c ts f).2).length
      = (if (send_to_printer s c ts f).1 = some false then 1 else 0) :=
  (send_obs s c ts f).2.2.2

/-- File deletion actions contain no info-level log line. -/
theorem infoLogs_delete (fs : FS) (p : String) :
    infoLogs (delete_file fs p).2 = [] := (delete_obs fs p).1

/-- File deletion actions contain no error-level log line (in this model
os.remove always succeeds). -/
theorem errLogs_delete (fs : FS) (p : String) :
    errLogs (delete_file fs p).2 = [] := (delete_obs fs p).2.1

/-- File deletion actions contain no file write. -/
theorem fileWrites_delete (fs : FS) (p : String) :
    fileWrites (delete_file fs p).2 = [] := (delete_obs fs p).2.2.1

/-- File deletion actions contain no print submission. -/
theorem printSubmits_delete (fs : FS) (p : String) :
    printSubmits (delete_file fs p).2 = [] := (delete_obs fs p).2.2.2

/-- No actions, no info log lines. -/
theorem infoLogs_nil : infoLogs [] = [] := rfl

/-- No actions, no error log lines. -/
theorem errLogs_nil : errLogs [] = [] := rfl

/-- No actions, no file writes. -/
theorem fileWrites_nil : fileWrites [] = [] := rfl

/-- No actions, no file deletions. -/
theorem fileDeletes_nil : fileDeletes [] = [] := rfl

/-- No actions, no print submissions. -/
theorem printSubmits_nil : printSubmits [] = [] := rfl

/-- No actions, no log lines. -/
theorem logLines_nil : logLines [] = [] := rfl

/-- A leading file write contributes nothing to the log lines. -/
theorem logLines_cons_fileWrite (p : String) (b : List Nat) (rest : List Action) :
    logLines (Action.fileWrite p b :: rest) = logLines rest := rfl

/-- A leading file write contributes nothing to the info log lines. -/
theorem infoLogs_cons_fileWrite (p : String) (b : List Nat) (rest : List Action) :
    infoLogs (Action.fileWrite p b :: rest) = infoLogs rest := rfl

/-- A leading info log event contributes its formatted line. -/
theorem infoLogs_cons_logInfo (ts msg : String) (rest : List Action) :
    infoLogs (log_event ts "info" msg :: rest) = logLine ts "INFO" msg :: infoLogs rest := rfl

/-- A leading error log event contributes nothing to the info log lines. -/
theorem infoLogs_cons_logError (ts msg : String) (rest : List Action) :
    infoLogs (log_event ts "error" msg :: rest) = infoLogs rest := rfl

/-- A leading file write contributes nothing to the error log lines. -/
theorem errLogs_cons_fileWrite (p : String) (b : List Nat) (rest : List Action) :
    errLogs (Action.fileWrite p b :: rest) = errLogs rest := rfl

/-- A leading error log event contributes its formatted line. -/
theorem errLogs_cons_logError (ts msg : String) (rest : List Action) :
    errLogs (log_event ts "error" msg :: rest) = logLine ts "ERROR" msg :: errLogs rest := rfl

/-- A leading file write contributes nothing to the deletions. -/
theorem fileDeletes_cons_fileWrite (p : String) (b : List Nat) (rest : List Action) :
    fileDeletes (Action.fileWrite p b :: rest) = fileDeletes rest := rfl

/-- A leading error log event contributes nothing to the deletions. -/
theorem fileDeletes_cons_logError (ts msg : String) (rest : List Action) :
    fileDeletes (log_event ts "error" msg :: rest) = fileDeletes rest := rfl

/-- A leading file write contributes itself to the file writes. -/
theorem fileWrites_cons_fileWrite (p : String) (b : List Nat) (rest : List Action) :
    fileWrites (Action.fileWrite p b :: rest) = (p, b) :: fileWrites rest := rfl

/-- A leading info log event contributes nothing to the file writes. -/
theorem fileWrites_cons_logInfo (ts msg : String) (rest : List Action) :
    fileWrites (log_event ts "info" msg :: rest) = fileWrites rest := rfl

/-- A leading error log event contributes nothing to the file writes. -/
theorem fileWrites_cons_logError (ts msg : String) (rest : List Action) :
    fileWrites (log_event ts "error" msg :: rest) = fileWrites rest := rfl

/-- A leading file write contributes nothing to the print submissions. -/
theorem printSubmits_cons_fileWrite (p : String) (b : List Nat) (rest : List Action) :
    printSubmits (Action.fileWrite p b :: rest) = printSubmits rest := rfl

/-- A leading info log event contributes nothing to the print submissions. -/
theorem printSubmits_cons_logInfo (ts msg : String) (rest : List Action) :
    printSubmits (log_event ts "info" msg :: rest) = printSubmits rest := rfl

/-- A leading error log event contributes nothing to the print submissions. -/
theorem printSubmits_cons_logError (ts msg : String) (rest : List Action) :
    printSubmits (log_event ts "error" msg :: rest) = printSubmits rest := rfl

/-- A leading info log event contributes its line to the log lines. -/
theorem logLines_cons_logInfo (ts msg : String) (rest : List Action) :
    logLines (log_event ts "info" msg :: rest) = logLine ts "INFO" msg :: logLines rest := rfl

/-- A leading error log event contributes its line to the log lines. -/
theorem logLines_cons_logError (ts msg : String) (rest : List Action) :
    logLines (log_event ts "error" msg :: rest) = logLine ts "ERROR" msg :: logLines rest := rfl

/-- A print event with a selection in hand runs the shared print pipeline. -/
theorem stepConsole_print (env : Env) (s : Sel) (fs : FS) (key : String)
    (hkey : key = "5" ∨ key = "6") :
    stepConsole env (some s) fs key
      = some (some s, printFlow env s.1 s.2 (key == "6") fs) := by
  rcases hkey with h | h <;> subst h <;> rfl

/-- Deleting a freshly written file with a truthy path removes it. -/
theorem fsExists_delete_after_write (fs : FS) (p : String) (v : List Nat)
    (hp : (p == "") = false) :
    fsExists (delete_file (fsWrite fs p v) p).1 p = false := by
  unfold delete_file
  rw [hp, fsExists_fsWrite_self]
  exact fsExists_fsErase_self _ _

/-- C1 counterexample: with a sector selected and the Code Reader
returning None (camera opens, operator cancels), the key-6 dispatch still
writes the output image, still invokes the printer and still writes a log
line — the claimed abort does not happen. -/
theorem C1_counterexample :
    (scan_qr_code envOkLinux.camera envOkLinux.logTs).1 = none
    ∧ fileWrites (outActs (stepConsole envOkLinux (some (templates 1)) [] "6")) ≠ []
    ∧ printSubmits (outActs (stepConsole envOkLinux (some (templates 1)) [] "6")) ≠ []
    ∧ logLines (outActs (stepConsole envOkLinux (some (templates 1)) [] "6")) ≠ [] := by decide

/-- C2 counterexample: a failed Linux print attempt leaves the file in
place but writes two error-level log lines (one from send_to_printer's
exception handler, one from the dispatcher), not exactly one. -/
theorem C2_counterexample :
    sendRes envFailLinux ≠ some true
    ∧ (errLogs (outActs (stepConsole envFailLinux (some (templates 1)) [] "5"))).length = 2
    ∧ (errLogs (outActs (stepConsole envFailLinux (some (templates 1)) [] "5"))).length ≠ 1
    ∧ fsExists (outFS [] (stepConsole envFailLinux (some (templates 1)) [] "5"))
        (ticketPath "20240501_120000") = true := by decide

/-- C3 counterexample: the one info-level line of a successful print is
"<ts> [INFO] Ticket gedruckt: Sektor=... | QR=..."; it does not start with
the prefix "<ts> [INFO] Sektor=" that every instance of the claimed format
has, so it matches no instance of the claimed format. -/
theorem C3_counterexample :
    sendRes envOkLinux = some true
    ∧ infoLogs (outActs (stepConsole envOkLinux
        (some ("Waldseite", "templates/ws_eintrittskarte_gladbach_waldseite.png")) [] "5"))
      = ["2024-05-01 12:00:00 [INFO] Ticket gedruckt: Sektor=Waldseite | QR=False"]
    ∧ strPrefix (specFormatPrefix "2024-05-01 12:00:00" "INFO")
        "2024-05-01 12:00:00 [INFO] Ticket gedruckt: Sektor=Waldseite | QR=False" = false := by decide

/-- C3 (amended): a successful print writes exactly one info-level log
line, that line is <timestamp> [INFO] Ticket gedruckt: Sektor=<name> |
QR=<True|False> — the claimed format with the message prefix "Ticket
gedruckt: " between the level and "Sektor=" — and the ephemeral image
file no longer exists afterwards. -/
theorem C3_print_success (env : Env) (name path : String) (fs : FS) (key : String)
    (hkey : key = "5" ∨ key = "6") (hs : sendRes env = some true) :
    outSel (some (name, path)) (stepConsole env (some (name, path)) fs key) = some (name, path)
    ∧ infoLogs (outActs (stepConsole env (some (name, path)) fs key))
        = [logLine env.logTs "INFO"
            ("Ticket gedruckt: Sektor=" ++ (name ++ (" | QR=" ++ pyBool (key == "6"))))]
    ∧ fsExists (outFS fs (stepConsole env (some (name, path)) fs key))
        (ticketPath env.fileTs) = false := by
  unfold sendRes at hs
  have hb : ((send_to_printer env.system env.printCall env.logTs (ticketPath env.fileTs)).1
      == some true) = true := by rw [hs]; rfl
  rw [stepConsole_print env (name, path) fs key hkey]
  refine ⟨rfl, ?_, ?_⟩
  · show infoLogs (printFlow env name path (key == "6") fs).2 = _
    simp only [printFlow, overlay_qr_on_template, hb, if_true]
    cases hqm : (key == "6") <;>
      simp [infoLogs_append, infoLogs_scan, infoLogs_send, infoLogs_delete,
        infoLogs_cons_fileWrite, infoLogs_cons_logInfo]
  · show fsExists (printFlow env name path (key == "6") fs).1 (ticketPath env.fileTs) = false
    simp only [printFlow, overlay_qr_on_template, hb, if_true]
    exact fsExists_delete_after_write _ _ _ (ticketPath_ne_empty env.fileTs)

/-- Witness for C3: a successful plain print of sector Waldseite on the
concrete Linux environment. -/
theorem C3_witness :
    outSel (some ("Waldseite", "templates/ws_eintrittskarte_gladbach_waldseite.png"))
        (stepConsole envOkLinux
          (some ("Waldseite", "templates/ws_eintrittskarte_gladbach_waldseite.png")) [] "5")
      = some ("Waldseite", "templates/ws_eintrittskarte_gladbach_waldseite.png")
    ∧ infoLogs (outActs (stepConsole envOkLinux
          (some ("Waldseite", "templates/ws_eintrittskarte_gladbach_waldseite.png")) [] "5"))
        = [logLine envOkLinux.logTs "INFO"
            ("Ticket gedruckt: Sektor=" ++ ("Waldseite" ++ (" | QR=" ++ pyBool ("5" == "6"))))]
    ∧ fsExists (outFS [] (stepConsole envOkLinux
          (some ("Waldseite", "templates/ws_eintrittskarte_gladbach_waldseite.png")) [] "5"))
        (ticketPath envOkLinux.fileTs) = false :=
  C3_print_success envOkLinux "Waldseite"
    "templates/ws_eintrittskarte_gladbach_waldseite.png" [] "5" (Or.inl rfl) rfl

/-- C2 (amended): after a failed print submission the ephemeral image file
remains on disk and nothing is deleted; the error-level lines of the
attempt are exactly those of the Code Reader (QR mode only), those of
send_to_printer, and the dispatcher's own single "Druckfehler: Sektor=..."
line — and send_to_printer contributes exactly one such line when it
caught an exception (result False), none when the platform is unsupported
(result None), making two error lines in the usual failing case. -/
theorem C2_print_failure (env : Env) (name path : String) (fs : FS) (key : String)
    (hkey : key = "5" ∨ key = "6") (hs : sendRes env ≠ some true) :
    fsExists (outFS fs (stepConsole env (some (name, path)) fs key)) (ticketPath env.fileTs) = true
    ∧ fileDeletes (outActs (stepConsole env (some (name, path)) fs key)) = []
    ∧ errLogs (outActs (stepConsole env (some (name, path)) fs key))
        = errLogs (if (key == "6") then (scan_qr_code env.camera env.logTs).2 else [])
          ++ (errLogs (send_to_printer env.system env.printCall env.logTs (ticketPath env.fileTs)).2
          ++ [logLine env.logTs "ERROR"
              ("Druckfehler: Sektor=" ++ (name ++ (" | QR=" ++ pyBool (key == "6"))))])
    ∧ (errLogs (send_to_printer env.system env.printCall env.logTs (ticketPath env.fileTs)).2).length
        = (if sendRes env = some false then 1 else 0) := by
  have hb : ((send_to_printer env.system env.printCall env.logTs (ticketPath env.fileTs)).1
      == some true) = false := by
    unfold sendRes at hs; exact beq_eq_false_iff_ne.mpr hs
  rw [stepConsole_print env (name, path) fs key hkey]
  refine ⟨?_, ?_, ?_, ?_⟩
  · show fsExists (printFlow env name path (key == "6") fs).1 (ticketPath env.fileTs) = true
    simp only [printFlow, overlay_qr_on_template, hb, Bool.false_eq_true, if_false]
    exact fsExists_fsWrite_self _ _ _
  · show fileDeletes (printFlow env name path (key == "6") fs).2 = []
    simp only [printFlow, overlay_qr_on_template, hb, Bool.false_eq_true, if_false]
    cases hqm : (key == "6") <;>
      simp [fileDeletes_append, fileDeletes_scan, fileDeletes_send, fileDeletes_nil,
        fileDeletes_cons_fileWrite, fileDeletes_cons_logError]
  · show errLogs (printFlow env name path (key == "6") fs).2 = _
    simp only [printFlow, overlay_qr_on_template, hb, Bool.false_eq_true, if_false]
    cases hqm : (key == "6") <;>
      simp [errLogs_append, errLogs_nil, errLogs_cons_fileWrite, errLogs_cons_logError]
  · unfold sendRes
    exact errLogs_send_length _ _ _ _

/-- Witness for C2: a failed plain print of sector Waldseite on the
concrete Linux environment whose lp call raises. -/
theorem C2_witness :
    fsExists (outFS [] (stepConsole envFailLinux
          (some ("Waldseite", "templates/ws_eintrittskarte_gladbach_waldseite.png")) [] "5"))
        (ticketPath envFailLinux.fileTs) = true
    ∧ fileDeletes (outActs (stepConsole envFailLinux
          (some ("Waldseite", "templates/ws_eintrittskarte_gladbach_waldseite.png")) [] "5")) = []
    ∧ errLogs (outActs (stepConsole envFailLinux
          (some ("Waldseite", "templates/ws_eintrittskarte_gladbach_waldseite.png")) [] "5"))
        = errLogs (if (("5" : String) == "6") then (scan_qr_code envFailLinux.camera envFailLinux.logTs).2 else [])
          ++ (errLogs (send_to_printer envFailLinux.system envFailLinux.printCall
                envFailLinux.logTs (ticketPath envFailLinux.fileTs)).2
          ++ [logLine envFailLinux.logTs "ERROR"
              ("Druckfehler: Sektor=" ++ ("Waldseite" ++ (" | QR=" ++ pyBool (("5" : String) == "6"))))])
    ∧ (errLogs (send_to_printer envFailLinux.system envFailLinux.printCall
          envFailLinux.logTs (ticketPath envFailLinux.fileTs)).2).length
        = (if sendRes envFailLinux = some false then 1 else 0) :=
  C2_print_failure envFailLinux "Waldseite"
    "templates/ws_eintrittskarte_gladbach_waldseite.png" [] "5" (Or.inl rfl) (by decide)

/-- C1 (amended): when the Code Reader returns no code, the key-6 dispatch
does not abort — it writes exactly one output image (composed with no code
pasted, since the falsy qr_text skips the paste), invokes the OS print
mechanism for it (on Linux or Darwin hosts), and writes at least one log
line for the attempt. -/
theorem C1_qr_none_proceeds (env : Env) (name path : String) (fs : FS)
    (hscan : (scan_qr_code env.camera env.logTs).1 = none)
    (hsys : env.system = "Linux" ∨ env.system = "Darwin") :
    fileWrites (outActs (stepConsole env (some (name, path)) fs "6"))
      = [(ticketPath env.fileTs,
          (overlay_image env.qrMake (env.loadImg path) none TEMPLATE_Y_OFFSET).encode)]
    ∧ printSubmits (outActs (stepConsole env (some (name, path)) fs "6"))
        = [ticketPath env.fileTs]
    ∧ logLines (outActs (stepConsole env (some (name, path)) fs "6")) ≠ [] := by
  rw [stepConsole_print env (name, path) fs "6" (Or.inr rfl)]
  refine ⟨?_, ?_, ?_⟩
  · show fileWrites (printFlow env name path ("6" == "6") fs).2 = _
    simp only [printFlow, overlay_qr_on_template]
    cases hb : ((send_to_printer env.system env.printCall env.logTs (ticketPath env.fileTs)).1
        == some true) <;>
      simp [fileWrites_append, fileWrites_scan, fileWrites_send, fileWrites_delete,
        fileWrites_nil, fileWrites_cons_fileWrite, fileWrites_cons_logInfo,
        fileWrites_cons_logError, hscan]
  · show printSubmits (printFlow env name path ("6" == "6") fs).2 = _
    simp only [printFlow, overlay_qr_on_template]
    cases hb : ((send_to_printer env.system env.printCall env.logTs (ticketPath env.fileTs)).1
        == some true) <;>
      simp [printSubmits_append, printSubmits_scan, printSubmits_delete, printSubmits_nil,
        printSubmits_cons_fileWrite, printSubmits_cons_logInfo, printSubmits_cons_logError,
        send_printSubmits_unix _ _ _ _ hsys]
  · show logLines (printFlow env name path ("6" == "6") fs).2 ≠ []
    simp only [printFlow, overlay_qr_on_template]
    cases hb : ((send_to_printer env.system env.printCall env.logTs (ticketPath env.fileTs)).1
        == some true) <;>
      simp [logLines_append, logLines_nil, logLines_cons_fileWrite,
        logLines_cons_logInfo, logLines_cons_logError]

/-- Witness for C1: the concrete Linux environment whose camera yields no
code still produces the file write, the print submission and a log line. -/
theorem C1_witness :
    fileWrites (outActs (stepConsole envOkLinux
          (some ("Waldseite", "templates/ws_eintrittskarte_gladbach_waldseite.png")) [] "6"))
      = [(ticketPath envOkLinux.fileTs,
          (overlay_image envOkLinux.qrMake
            (envOkLinux.loadImg "templates/ws_eintrittskarte_gladbach_waldseite.png")
            none TEMPLATE_Y_OFFSET).encode)]
    ∧ printSubmits (outActs (stepConsole envOkLinux
          (some ("Waldseite", "templates/ws_eintrittskarte_gladbach_waldseite.png")) [] "6"))
        = [ticketPath envOkLinux.fileTs]
    ∧ logLines (outActs (stepConsole envOkLinux
          (some ("Waldseite", "templates/ws_eintrittskarte_gladbach_waldseite.png")) [] "6")) ≠ [] :=
  C1_qr_none_proceeds envOkLinux "Waldseite"
    "templates/ws_eintrittskarte_gladbach_waldseite.png" [] rfl (Or.inl rfl)


/-- C6: on the prescribed log content the Tally utility reports Waldseite
with 3 tickets, 2 of them with QR, and a grand total of 3; and a line the
pattern does not match contributes nothing to the report wherever it
appears. -/
theorem C6_tally_output :
    statsOutput
        ["2025-07-12 19:02:11 [INFO] Ticket gedruckt: Sektor=Waldseite | QR=True",
         "2025-07-12 19:05:42 [INFO] Ticket gedruckt: Sektor=Waldseite | QR=True",
         "kaputte Zeile ohne Muster",
         "2025-07-12 19:09:03 [INFO] Ticket gedruckt: Sektor=Waldseite | QR=False"]
      = ["--- Statistik ---", "Waldseite: 3 Tickets (davon 2 mit QR)", "Gesamt: 3 Tickets"]
    ∧ ∀ (pre post : List String) (l : String), extractLine l = none →
        statsOutput (pre ++ l :: post) = statsOutput (pre ++ post) := by
  constructor
  · decide
  · intro pre post l h
    simp only [statsOutput, tallyPairs, List.filterMap_append, List.filterMap_cons, h]

/-- Witness for C6: removing a concrete malformed line leaves the report
unchanged. -/
theorem C6_witness :
    extractLine "kaputte Zeile ohne Muster" = none
    ∧ statsOutput
        (["2025-07-12 19:02:11 [INFO] Ticket gedruckt: Sektor=Waldseite | QR=True"]
          ++ "kaputte Zeile ohne Muster"
            :: ["2025-07-12 19:09:03 [INFO] Ticket gedruckt: Sektor=Waldseite | QR=False"])
      = statsOutput
        (["2025-07-12 19:02:11 [INFO] Ticket gedruckt: Sektor=Waldseite | QR=True"]
          ++ ["2025-07-12 19:09:03 [INFO] Ticket gedruckt: Sektor=Waldseite | QR=False"]) :=
  ⟨by decide, C6_tally_output.2 _ _ _ (by decide)⟩

/-- C7: for each configured sector and either QR flag, the dispatcher
failure line "Druckfehler: Sektor=<name> | QR=<flag>" and the success line
"Ticket gedruckt: Sektor=<name> | QR=<flag>" both match the Tally regex
with the same extracted pair, so the Tally utility counts a failed print
attempt into the sector total and the grand total exactly as it counts a
successful one; the timestamp hypothesis records that the logging date
format never produces the letter S. -/
theorem C7_error_lines_counted (ts name : String) (qr : Bool)
    (hname : name ∈ ["Waldseite", "Gegengerade", "Wuhleseite", "Haupttribüne"])
    (hts : 'S' ∉ ts.data) :
    extractLine (logLine ts "ERROR"
        ("Druckfehler: Sektor=" ++ (name ++ (" | QR=" ++ pyBool qr))))
      = some (name, pyBool qr)
    ∧ extractLine (logLine ts "INFO"
        ("Ticket gedruckt: Sektor=" ++ (name ++ (" | QR=" ++ pyBool qr))))
      = some (name, pyBool qr)
    ∧ ∀ rest, tallyPairs (logLine ts "ERROR"
          ("Druckfehler: Sektor=" ++ (name ++ (" | QR=" ++ pyBool qr))) :: rest)
        = (name, pyBool qr) :: tallyPairs rest := by
  have hmem : name = "Waldseite" ∨ name = "Gegengerade" ∨ name = "Wuhleseite"
      ∨ name = "Haupttribüne" := by simpa using hname
  rcases hmem with h | h | h | h <;> subst h <;> cases qr
  · have he : extractLine (logLine ts "ERROR"
        ("Druckfehler: Sektor=" ++ ("Waldseite" ++ (" | QR=" ++ pyBool false))))
        = some ("Waldseite", pyBool false) := by
      unfold extractLine
      rw [show (logLine ts "ERROR"
          ("Druckfehler: Sektor=" ++ ("Waldseite" ++ (" | QR=" ++ pyBool false)))).data
          = ts.data ++ (" [ERROR] Druckfehler: Sektor=Waldseite | QR=False").data from rfl]
      rw [reSearchSektor_append _ _ hts]
      decide
    have hi : extractLine (logLine ts "INFO"
        ("Ticket gedruckt: Sektor=" ++ ("Waldseite" ++ (" | QR=" ++ pyBool false))))
        = some ("Waldseite", pyBool false) := by
      unfold extractLine
      rw [show (logLine ts "INFO"
          ("Ticket gedruckt: Sektor=" ++ ("Waldseite" ++ (" | QR=" ++ pyBool false)))).data
          = ts.data ++ (" [INFO] Ticket gedruckt: Sektor=Waldseite | QR=False").data from rfl]
      rw [reSearchSektor_append _ _ hts]
      decide
    exact ⟨he, hi, fun rest => by simp [tallyPairs, List.filterMap_cons, he]⟩
  · have he : extractLine (logLine ts "ERROR"
        ("Druckfehler: Sektor=" ++ ("Waldseite" ++ (" | QR=" ++ pyBool true))))
        = some ("Waldseite", pyBool true) := by
      unfold extractLine
      rw [show (logLine ts "ERROR"
          ("Druckfehler: Sektor=" ++ ("Waldseite" ++ (" | QR=" ++ pyBool true)))).data
          = ts.data ++ (" [ERROR] Druckfehler: Sektor=Waldseite | QR=True").data from rfl]
      rw [reSearchSektor_append _ _ hts]
      decide
    have hi : extractLine (logLine ts "INFO"
        ("Ticket gedruckt: Sektor=" ++ ("Waldseite" ++ (" | QR=" ++ pyBool true))))
        = some ("Waldseite", pyBool true) := by
      unfold extractLine
      rw [show (logLine ts "INFO"
          ("Ticket gedruckt: Sektor=" ++ ("Waldseite" ++ (" | QR=" ++ pyBool true)))).data
          = ts.data ++ (" [INFO] Ticket gedruckt: Sektor=Waldseite | QR=True").data from rfl]
      rw [reSearchSektor_append _ _ hts]
      decide
    exact ⟨he, hi, fun rest => by simp [tallyPairs, List.filterMap_cons, he]⟩
  · have he : extractLine (logLine ts "ERROR"
        ("Druckfehler: Sektor=" ++ ("Gegengerade" ++ (" | QR=" ++ pyBool false))))
        = some ("Gegengerade", pyBool false) := by
      unfold extractLine
      rw [show (logLine ts "ERROR"
          ("Druckfehler: Sektor=" ++ ("Gegengerade" ++ (" | QR=" ++ pyBool false)))).data
          = ts.data ++ (" [ERROR] Druckfehler: Sektor=Gegengerade | QR=False").data from rfl]
      rw [reSearchSektor_append _ _ hts]
      decide
    have hi : extractLine (logLine ts "INFO"
        ("Ticket gedruckt: Sektor=" ++ ("Gegengerade" ++ (" | QR=" ++ pyBool false))))
        = some ("Gegengerade", pyBool false) := by
      unfold extractLine
      rw [show (logLine ts "INFO"
          ("Ticket gedruckt: Sektor=" ++ ("Gegengerade" ++ (" | QR=" ++ pyBool false)))).data
          = ts.data ++ (" [INFO] Ticket gedruckt: Sektor=Gegengerade | QR=False").data from rfl]
      rw [reSearchSektor_append _ _ hts]
      decide
    exact ⟨he, hi, fun rest => by simp [tallyPairs, List.filterMap_cons, he]⟩
  · have he : extractLine (logLine ts "ERROR"
        ("Druckfehler: Sektor=" ++ ("Gegengerade" ++ (" | QR=" ++ pyBool true))))
        = some ("Gegengerade", pyBool true) := by
      unfold extractLine
      rw [show (logLine ts "ERROR"
          ("Druckfehler: Sektor=" ++ ("Gegengerade" ++ (" | QR=" ++ pyBool true)))).data
          = ts.data ++ (" [ERROR] Druckfehler: Sektor=Gegengerade | QR=True").data from rfl]
      rw [reSearchSektor_append _ _ hts]
      decide
    have hi : extractLine (logLine ts "INFO"
        ("Ticket gedruckt: Sektor=" ++ ("Gegengerade" ++ (" | QR=" ++ pyBool true))))
        = some ("Gegengerade", pyBool true) := by
      unfold extractLine
      rw [show (logLine ts "INFO"
          ("Ticket gedruckt: Sektor=" ++ ("Gegengerade" ++ (" | QR=" ++ pyBool true)))).data
          = ts.data ++ (" [INFO] Ticket gedruckt: Sektor=Gegengerade | QR=True").data from rfl]
      rw [reSearchSektor_append _ _ hts]
      decide
    exact ⟨he, hi, fun rest => by simp [tallyPairs, List.filterMap_cons, he]⟩
  · have he : extractLine (logLine ts "ERROR"
        ("Druckfehler: Sektor=" ++ ("Wuhleseite" ++ (" | QR=" ++ pyBool false))))
        = some ("Wuhleseite", pyBool false) := by
      unfold extractLine
      rw [show (logLine ts "ERROR"
          ("Druckfehler: Sektor=" ++ ("Wuhleseite" ++ (" | QR=" ++ pyBool false)))).data
          = ts.data ++ (" [ERROR] Druckfehler: Sektor=Wuhleseite | QR=False").data from rfl]
      rw [reSearchSektor_append _ _ hts]
      decide
    have hi : extractLine (logLine ts "INFO"
        ("Ticket gedruckt: Sektor=" ++ ("Wuhleseite" ++ (" | QR=" ++ pyBool false))))
        = some ("Wuhleseite", pyBool false) := by
      unfold extractLine
      rw [show (logLine ts "INFO"
          ("Ticket gedruckt: Sektor=" ++ ("Wuhleseite" ++ (" | QR=" ++ pyBool false)))).data
          = ts.data ++ (" [INFO] Ticket gedruckt: Sektor=Wuhleseite | QR=False").data from rfl]
      rw [reSearchSektor_append _ _ hts]
      decide
    exact ⟨he, hi, fun rest => by simp [tallyPairs, List.filterMap_cons, he]⟩
  · have he : extractLine (logLine ts "ERROR"
        ("Druckfehler: Sektor=" ++ ("Wuhleseite" ++ (" | QR=" ++ pyBool true))))
        = some ("Wuhleseite", pyBool true) := by
      unfold extractLine
      rw [show (logLine ts "ERROR"
          ("Druckfehler: Sektor=" ++ ("Wuhleseite" ++ (" | QR=" ++ pyBool true)))).data
          = ts.data ++ (" [ERROR] Druckfehler: Sektor=Wuhleseite | QR=True").data from rfl]
      rw [reSearchSektor_append _ _ hts]
      decide
    have hi : extractLine (logLine ts "INFO"
        ("Ticket gedruckt: Sektor=" ++ ("Wuhleseite" ++ (" | QR=" ++ pyBool true))))
        = some ("Wuhleseite", pyBool true) := by
      unfold extractLine
      rw [show (logLine ts "INFO"
          ("Ticket gedruckt: Sektor=" ++ ("Wuhleseite" ++ (" | QR=" ++ pyBool true)))).data
          = ts.data ++ (" [INFO] Ticket gedruckt: Sektor=Wuhleseite | QR=True").data from rfl]
      rw [reSearchSektor_append _ _ hts]
      decide
    exact ⟨he, hi, fun rest => by simp [tallyPairs, List.filterMap_cons, he]⟩
  · have he : extractLine (logLine ts "ERROR"
        ("Druckfehler: Sektor=" ++ ("Haupttribüne" ++ (" | QR=" ++ pyBool false))))
        = some ("Haupttribüne", pyBool false) := by
      unfold extractLine
      rw [show (logLine ts "ERROR"
          ("Druckfehler: Sektor=" ++ ("Haupttribüne" ++ (" | QR=" ++ pyBool false)))).data
          = ts.data ++ (" [ERROR] Druckfehler: Sektor=Haupttribüne | QR=False").data from rfl]
      rw [reSearchSektor_append _ _ hts]
      decide
    have hi : extractLine (logLine ts "INFO"
        ("Ticket gedruckt: Sektor=" ++ ("Haupttribüne" ++ (" | QR=" ++ pyBool false))))
        = some ("Haupttribüne", pyBool false) := by
      unfold extractLine
      rw [show (logLine ts "INFO"
          ("Ticket gedruckt: Sektor=" ++ ("Haupttribüne" ++ (" | QR=" ++ pyBool false)))).data
          = ts.data ++ (" [INFO] Ticket gedruckt: Sektor=Haupttribüne | QR=False").data from rfl]
      rw [reSearchSektor_append _ _ hts]
      decide
    exact ⟨he, hi, fun rest => by simp [tallyPairs, List.filterMap_cons, he]⟩
  · have he : extractLine (logLine ts "ERROR"
        ("Druckfehler: Sektor=" ++ ("Haupttribüne" ++ (" | QR=" ++ pyBool true))))
        = some ("Haupttribüne", pyBool true) := by
      unfold extractLine
      rw [show (logLine ts "ERROR"
          ("Druckfehler: Sektor=" ++ ("Haupttribüne" ++ (" | QR=" ++ pyBool true)))).data
          = ts.data ++ (" [ERROR] Druckfehler: Sektor=Haupttribüne | QR=True").data from rfl]
      rw [reSearchSektor_append _ _ hts]
      decide
    have hi : extractLine (logLine ts "INFO"
        ("Ticket gedruckt: Sektor=" ++ ("Haupttribüne" ++ (" | QR=" ++ pyBool true))))
        = some ("Haupttribüne", pyBool true) := by
      unfold extractLine
      rw [show (logLine ts "INFO"
          ("Ticket gedruckt: Sektor=" ++ ("Haupttribüne" ++ (" | QR=" ++ pyBool true)))).data
          = ts.data ++ (" [INFO] Ticket gedruckt: Sektor=Haupttribüne | QR=True").data from rfl]
      rw [reSearchSektor_append _ _ hts]
      decide
    exact ⟨he, hi, fun rest => by simp [tallyPairs, List.filterMap_cons, he]⟩

/-- Witness for C7: a concrete failure line for Waldseite with QR=True is
extracted as (Waldseite, True). -/
theorem C7_witness :
    extractLine (logLine "2025-07-12 19:02:11" "ERROR"
        ("Druckfehler: Sektor=" ++ ("Waldseite" ++ (" | QR=" ++ pyBool true))))
      = some ("Waldseite", pyBool true) :=
  (C7_error_lines_counted "2025-07-12 19:02:11" "Waldseite" true (by decide) (by decide)).1

/-- Pixel of a paste, unfolded. -/
theorem Img_paste_pixel (base src : Img) (px py x y : Nat) :
    (Img.paste base src px py).pixel x y
      = if px ≤ x ∧ x < px + src.width ∧ py ≤ y ∧ y < py + src.height then
          src.pixel (x - px) (y - py)
        else base.pixel x y := rfl

/-- Width of a paste is the base width. -/
theorem Img_paste_width (base src : Img) (px py : Nat) :
    (Img.paste base src px py).width = base.width := rfl

/-- Height of a paste is the base height. -/
theorem Img_paste_height (base src : Img) (px py : Nat) :
    (Img.paste base src px py).height = base.height := rfl

/-- Pixel of a fresh canvas is its fill color. -/
theorem Img_new_pixel (w h : Nat) (c : Color) (x y : Nat) :
    (Img.new w h c).pixel x y = c := rfl

/-- Width of a fresh canvas. -/
theorem Img_new_width (w h : Nat) (c : Color) : (Img.new w h c).width = w := rfl

/-- Height of a fresh canvas. -/
theorem Img_new_height (w h : Nat) (c : Color) : (Img.new w h c).height = h := rfl

/-- Width of a resize is the requested width. -/
theorem Img_resize_width (img : Img) (w h : Nat) : (img.resize w h).width = w := rfl

/-- Height of a resize is the requested height. -/
theorem Img_resize_height (img : Img) (w h : Nat) : (img.resize w h).height = h := rfl

/-- C8: with a nonzero configured shift and a nonempty code text the
Compositor produces a canvas of the template width and of the template
height plus the shift; outside the code box the canvas shows the template
shifted down by y_offset on a white background, and the 180-by-180 code
box sits at (1540, 255) showing the code image resized to QR_SIZE. -/
theorem C8_compositor (qrMake : String → Img) (t : Img) (q : String) (y : Nat)
    (hy : y ≠ 0) (hq : q ≠ "") :
    (overlay_image qrMake t (some q) y).width = t.width
    ∧ (overlay_image qrMake t (some q) y).height = t.height + y
    ∧ (∀ x yy, ¬(1540 ≤ x ∧ x < 1720 ∧ 255 ≤ yy ∧ yy < 435) →
        (overlay_image qrMake t (some q) y).pixel x yy
          = if y ≤ yy ∧ yy < y + t.height ∧ x < t.width then t.pixel x (yy - y) else white)
    ∧ (∀ x yy, 1540 ≤ x → x < 1720 → 255 ≤ yy → yy < 435 →
        (overlay_image qrMake t (some q) y).pixel x yy
          = ((qrMake q).resize QR_SIZE QR_SIZE).pixel (x - 1540) (yy - 255)) := by
  have hq2 : pyTruthyStr (some q) = true := by simp [pyTruthyStr, hq]
  simp only [overlay_image, hq2, if_true]
  rw [if_pos hy]
  refine ⟨rfl, rfl, ?_, ?_⟩
  · intro x yy h
    simp only [Img_paste_pixel, Img_new_pixel, Img_resize_width, Img_resize_height,
      Img_paste_width, Img_paste_height, Img_new_width, Img_new_height,
      QR_INSERT_POS, QR_SIZE]
    split_ifs <;> first | rfl | (exfalso; omega)
  · intro x yy h1 h2 h3 h4
    simp only [Img_paste_pixel, Img_new_pixel, Img_resize_width, Img_resize_height,
      Img_paste_width, Img_paste_height, Img_new_width, Img_new_height,
      QR_INSERT_POS, QR_SIZE]
    split_ifs <;> first | rfl | (exfalso; omega)

/-- Witness for C8: the one-pixel template with shift 20 and code text "x"
yields a 1-by-21 canvas whose top-left pixel is white. -/
theorem C8_witness :
    (overlay_image (fun _ => qrStub) onePx (some "x") 20).width = 1
    ∧ (overlay_image (fun _ => qrStub) onePx (some "x") 20).height = 21
    ∧ (overlay_image (fun _ => qrStub) onePx (some "x") 20).pixel 0 0 = white :=
  ⟨(C8_compositor (fun _ => qrStub) onePx "x" 20 (by decide) (by decide)).1,
   (C8_compositor (fun _ => qrStub) onePx "x" 20 (by decide) (by decide)).2.1,
   by
     have h := (C8_compositor (fun _ => qrStub) onePx "x" 20 (by decide) (by decide)).2.2.1
       0 0 (by decide)
     simpa using h⟩

end TicketPrinter
